import Mathlib

/-!
# Verification of the drum-sample extraction and pairing pipeline

Shallow embedding of the two source components of the repository:

* `src/src/drumbot_roy/training/sample_extractor.py` — `SampleExtractor`
  (`extract_samples`, `get_time_signature_at_tick`, `get_number_of_notes`);
* `src/src/drumbot_roy/training/drum_sample_dataset.py` — `DrumSampleDataset`
  (`prepare_samples`, `__len__`, `__getitem__`).

Modelling conventions:

* Python machine integers are modelled by `Int`; Python `//` is `Int.fdiv`
  (floor division) and Python `%` is `Int.emod` (written `%`, which is `emod`
  for `Int` here).
* Python `int(x)` truncation toward zero is `Int.tdiv` on the exact value.
  The source's floating-point bar-length computation is modelled by exact
  rational arithmetic, folded into an equivalent integer formula (see
  `barTicks`).
* Python list indexing (with its negative-index wrap-around and `IndexError`)
  is `pyGet`.
* Fallible code returns `Except PyErr`; `PyErr.fuelExhausted` marks a
  non-terminating `while` loop (the loops are driven by explicit fuel).
* External collaborators (the MIDI parser's segment dump + re-parse, the
  tokenizer) are modelled as pure functions, per the spec's description of
  their contracts.
-/

/-- A Python exception surfaced by the modelled code, or fuel exhaustion of a
modelled `while` loop. -/
inductive PyErr where
  | indexError
  | attributeError
  | typeError
  | fuelExhausted
deriving DecidableEq, Repr

/-- File paths (`pathlib.Path`) are modelled by strings; the code only ever
compares them for equality. -/
def MidiPath : Type := String

instance : DecidableEq MidiPath := inferInstanceAs (DecidableEq String)

instance : Repr MidiPath := inferInstanceAs (Repr String)

/-- A note of a `miditoolkit` instrument: `Note(velocity, pitch, start, end)`.
`end` is a Lean keyword, hence `endTick`. -/
structure Note where
  velocity : Int
  pitch : Int
  start : Int
  endTick : Int
deriving DecidableEq, Repr

/-- A `miditoolkit` instrument track: program number, drum flag and notes
(the `name` field of the source library is never read by this code). -/
structure Instrument where
  program : Int
  is_drum : Bool
  notes : List Note
deriving DecidableEq, Repr

/-- A `miditoolkit` time-signature change event. -/
structure TimeSignature where
  numerator : Int
  denominator : Int
  time : Int
deriving DecidableEq, Repr

/-- The parts of a parsed `miditoolkit` `MidiFile` that the code reads:
resolution, last tick, time-signature events and instrument tracks.
`max_tick` is computed once at parse time by the external library and is not
recomputed when `instruments` is reassigned, so it is a plain field. -/
structure MidiFile where
  ticks_per_beat : Int
  max_tick : Int
  time_signature_changes : List TimeSignature
  instruments : List Instrument
deriving DecidableEq, Repr

/-- `RawSample` dataclass of the source: one extracted window. -/
structure RawSample where
  file_path : MidiPath
  start : Int
  endTick : Int
  midi : MidiFile
deriving DecidableEq, Repr

/-- `TokenizedSample` dataclass of the source. -/
structure TokenizedSample where
  file_path : MidiPath
  start : Int
  endTick : Int
  tokens : List (List Int)
deriving DecidableEq, Repr

/-- `TokenizedSamplePair` dataclass of the source; `distance` is a Python
`float` holding `0` or `1`, modelled by `Int`. -/
structure TokenizedSamplePair where
  sample_a : TokenizedSample
  sample_b : TokenizedSample
  distance : Int
deriving DecidableEq, Repr

instance {ε α : Type} [DecidableEq ε] [DecidableEq α] : DecidableEq (Except ε α) :=
  fun a b =>
    match a, b with
    | Except.ok x, Except.ok y =>
      if h : x = y then Decidable.isTrue (by rw [h]) else
        Decidable.isFalse (by intro hc; injection hc; contradiction)
    | Except.error x, Except.error y =>
      if h : x = y then Decidable.isTrue (by rw [h]) else
        Decidable.isFalse (by intro hc; injection hc; contradiction)
    | Except.ok _, Except.error _ => Decidable.isFalse (by intro hc; injection hc)
    | Except.error _, Except.ok _ => Decidable.isFalse (by intro hc; injection hc)

/-- Python list subscription `l[i]`: indices in `[0, len l)` select directly,
indices in `[-len l, 0)` wrap around from the end, anything else raises
`IndexError`. -/
def pyGet {α : Type} (l : List α) (i : Int) : Except PyErr α :=
  let j : Int := if i < 0 then i + l.length else i
  if 0 ≤ j then
    match l[j.toNat]? with
    | some a => Except.ok a
    | none => Except.error PyErr.indexError
  else Except.error PyErr.indexError

/-- `SampleExtractor.__init__`: the only state is `bars_per_sample`. -/
structure SampleExtractor where
  bars_per_sample : Nat
deriving DecidableEq, Repr

/-- The `for time_sig in time_signatures[1:]` loop of
`get_time_signature_at_tick`: keep replacing the running result while
`tick >= time_sig.time`, stop at the first event past the tick (`break`). -/
def scanLoop (tick : Int) (cur : TimeSignature) : List TimeSignature → TimeSignature
  | [] => cur
  | ts :: rest => if ts.time ≤ tick then scanLoop tick ts rest else cur

/-- Embeds `SampleExtractor.get_time_signature_at_tick`: `None` on an empty
list, otherwise a linear scan starting from the first event. -/
def get_time_signature_at_tick (tick : Int) (time_signatures : List TimeSignature) :
    Option TimeSignature :=
  match time_signatures with
  | [] => none
  | first :: rest => some (scanLoop tick first rest)

/-- Embeds the bar-length computation of `extract_samples`:
`fourths_per_bar = time_sig.numerator / (time_sig.denominator / 4)` followed by
`int(fourths_per_bar * midi_obj.ticks_per_beat)`. As an exact rational this is
`(4 * numerator * ticks_per_beat) / denominator`, and Python `int(...)`
truncates toward zero, i.e. `Int.tdiv`. (The source computes in binary floating
point; it is modelled by exact rational arithmetic. A zero denominator raises
`ZeroDivisionError` in the source; here `Int.tdiv _ 0 = 0`, so the cursor
stalls and the extraction loop runs out of fuel, likewise yielding no complete
result.) -/
def barTicks (ts : TimeSignature) (ticks_per_beat : Int) : Int :=
  Int.tdiv (4 * ts.numerator * ticks_per_beat) ts.denominator

/-- The `for _ in range(self.bars_per_sample)` loop of `extract_samples`:
advance the cursor one bar at a time, looking up the signature active at the
current cursor. `none` models the `return None` taken when the lookup fails
(only possible on an empty event list). -/
def advanceBars (m : MidiFile) : Nat → Int → Option Int
  | 0, e => some e
  | Nat.succ n, e =>
    match get_time_signature_at_tick e m.time_signature_changes with
    | none => none
    | some ts => advanceBars m n (e + barTicks ts m.ticks_per_beat)

/-- Models the external `midi_obj.dump(file=stream, segment=(start, end))`
followed by re-parsing the stream: a self-contained fragment holding the
notes that fall within `[s, e)`. The spec treats this slice operation as an
external MIDI-library collaborator; per-window dump failures (the
`try/except` around the dump) are external-library exceptions with no
counterpart in this pure model. -/
def sliceMidi (m : MidiFile) (s e : Int) : MidiFile :=
  { m with
    instruments := m.instruments.map (fun inst =>
      { inst with
        notes := inst.notes.filter (fun nt => decide (s ≤ nt.start) && decide (nt.start < e)) }) }

/-- The `while start < midi_obj.max_tick` loop of `extract_samples`, with
explicit fuel. At the head of every iteration the running `end` equals
`start` (the loop ends with `start = end`), so both are passed along.
`none` means the fuel ran out with the loop still running. -/
def extractLoop (bars : Nat) (fp : MidiPath) (m : MidiFile) :
    Nat → Int → Int → Option (List RawSample)
  | 0, start, _ => if start < m.max_tick then none else some []
  | Nat.succ fuel, start, e =>
    if start < m.max_tick then
      match advanceBars m bars e with
      | none => some []
      | some e2 =>
        match extractLoop bars fp m fuel e2 e2 with
        | none => none
        | some rest =>
          some ({ file_path := fp, start := start, endTick := e2,
                  midi := sliceMidi m start e2 } :: rest)
    else some []

/-- Embeds `SampleExtractor.extract_samples` for a caller-supplied
`midi_obj` (the `midi_obj is None` parse-from-file entry is
`extract_samples_from_path`). Returns the post-state of the caller's MIDI
object — the source reassigns `midi_obj.instruments` in place when
`only_drum` is set — together with the yielded sequence (`none` = the fuel
ran out). -/
def SampleExtractor.extract_samples (ext : SampleExtractor) (midi_file_path : MidiPath)
    (midi_obj : MidiFile) (only_drum : Bool) (fuel : Nat) :
    MidiFile × Option (List RawSample) :=
  if midi_obj.time_signature_changes.length = 0 then (midi_obj, some [])
  else
    let m2 := if only_drum then
        { midi_obj with instruments := midi_obj.instruments.filter (fun i => i.is_drum) }
      else midi_obj
    if m2.instruments.length = 0 then (m2, some [])
    else (m2, extractLoop ext.bars_per_sample midi_file_path m2 fuel 0 0)

/-- Embeds the `midi_obj is None` entry of `extract_samples`: parse the file
(`parse` models `MidiFile(filename=...)`, `none` being a parse failure, which
the source logs and turns into an empty sequence). -/
def SampleExtractor.extract_samples_from_path (ext : SampleExtractor)
    (parse : MidiPath → Option MidiFile) (midi_file_path : MidiPath) (only_drum : Bool)
    (fuel : Nat) : Option (List RawSample) :=
  match parse midi_file_path with
  | none => some []
  | some m => (ext.extract_samples midi_file_path m only_drum fuel).2

/-- Embeds `SampleExtractor.get_number_of_notes`: the number of notes across
all instruments. -/
def get_number_of_notes (midi_obj : MidiFile) : Nat :=
  (midi_obj.instruments.map (fun inst => inst.notes.length)).sum

/-- `DrumSampleDataset.__init__` state: the discovered (and possibly already
shuffled) file list and the configuration flags. The seeded shuffle itself
happens at construction and the rest of the code only reads the resulting
order, so `midi_file_paths` carries the post-shuffle order. `samples` is
initialised to `None` by `__init__`. -/
structure DrumSampleDataset where
  midi_file_paths : List MidiPath
  bars_per_sample : Nat
  paired : Bool
  filter_out_empty_samples : Bool
  only_drum : Bool
  samples : Option (List RawSample)
deriving DecidableEq, Repr

/-- Embeds `DrumSampleDataset.__len__`: `None` (a logged warning and no
return value) before preparation, the sample count unpaired, twice the
sample count paired. -/
def DrumSampleDataset.lenSelf (ds : DrumSampleDataset) : Option Nat :=
  match ds.samples with
  | none => none
  | some l => if ds.paired = false then some l.length else some (l.length * 2)

/-- The body of the inner `for sample in ...extract_samples(...)` loop of
`prepare_samples`: skip a sample with zero notes when
`filter_out_empty_samples` is set, otherwise run `self.samples.append(sample)`
— which raises `AttributeError` when `self.samples` is still `None`. -/
def processSamples (filterEmpty : Bool) :
    Option (List RawSample) → List RawSample → Except PyErr (Option (List RawSample))
  | acc, [] => Except.ok acc
  | acc, sample :: rest =>
    if filterEmpty = true ∧ get_number_of_notes sample.midi = 0 then
      processSamples filterEmpty acc rest
    else
      match acc with
      | none => Except.error PyErr.attributeError
      | some l => processSamples filterEmpty (some (l ++ [sample])) rest

/-- The outer `for midi_file_path in tqdm(self.midi_file_paths)` loop of
`prepare_samples`. -/
def prepareLoop (parse : MidiPath → Option MidiFile) (ext : SampleExtractor)
    (only_drum filterEmpty : Bool) (fuel : Nat) :
    List MidiPath → Option (List RawSample) → Except PyErr (Option (List RawSample))
  | [], acc => Except.ok acc
  | p :: ps, acc =>
    match ext.extract_samples_from_path parse p only_drum fuel with
    | none => Except.error PyErr.fuelExhausted
    | some ws =>
      match processSamples filterEmpty acc ws with
      | Except.error e => Except.error e
      | Except.ok acc2 => prepareLoop parse ext only_drum filterEmpty fuel ps acc2

/-- Embeds `DrumSampleDataset.prepare_samples`: visit the files in order,
extract each file's samples with a `SampleExtractor(bars_per_sample)`, filter
empty ones when configured, and append the rest to `self.samples`. `parse`
models the filesystem/MIDI-parser collaborator. -/
def prepare_samples (parse : MidiPath → Option MidiFile) (fuel : Nat)
    (ds : DrumSampleDataset) : Except PyErr DrumSampleDataset :=
  match prepareLoop parse { bars_per_sample := ds.bars_per_sample } ds.only_drum
      ds.filter_out_empty_samples fuel ds.midi_file_paths ds.samples with
  | Except.error e => Except.error e
  | Except.ok acc => Except.ok { ds with samples := acc }

/-- Building a `TokenizedSample` from a `RawSample` via the external
tokenizer `tok` (`self.tokenizer.midi_to_tokens`, assumed a pure function per
the spec). -/
def tokenizedSample (tok : MidiFile → List (List Int)) (s : RawSample) :
    TokenizedSample :=
  { file_path := s.file_path, start := s.start, endTick := s.endTick,
    tokens := tok s.midi }

/-- Result of `DrumSampleDataset.__getitem__`: the `None` returned on
unprepared access, a single tokenized sample, or a tokenized pair. -/
inductive ItemResult where
  | noneR
  | single (s : TokenizedSample)
  | pair (p : TokenizedSamplePair)
deriving DecidableEq, Repr

/-- The even-index partner selection of `__getitem__`:
`sample_b_idx = item // 2 + 1`, then
`if sample_b_idx >= len(self) or self.samples[sample_b_idx].file_path != sample_a.file_path:`
`sample_b_idx = item // 2 - 1`. The bound in the short-circuit guard is
`len(self)` — twice the sample count in paired mode — and the file-path test
subscripts `self.samples`, which can itself raise `IndexError`. -/
def evenPartnerIdx (l : List RawSample) (sample_a : RawSample) (item : Int) :
    Except PyErr Int :=
  let idx : Int := Int.fdiv item 2 + 1
  if 2 * (l.length : Int) ≤ idx then Except.ok (Int.fdiv item 2 - 1)
  else
    match pyGet l idx with
    | Except.error e => Except.error e
    | Except.ok sb =>
      if sb.file_path ≠ sample_a.file_path then Except.ok (Int.fdiv item 2 - 1)
      else Except.ok idx

/-- The body of `__getitem__` once `self.samples` is known to be a list `l`.
Unpaired: subscript and tokenize. Paired: `sample_a = self.samples[item // 2]`;
even `item` takes the same-file-biased partner via `evenPartnerIdx` and labels
by an actual file comparison; odd `item` takes
`self.samples[int((item + len(self) / 2) % len(self))]` (with
`len(self) = 2 * len(self.samples)`) and labels `distance = 1`
unconditionally. -/
def getItemCore (tok : MidiFile → List (List Int)) (paired : Bool)
    (l : List RawSample) (item : Int) : Except PyErr ItemResult :=
  if paired = false then
    match pyGet l item with
    | Except.error e => Except.error e
    | Except.ok sample => Except.ok (ItemResult.single (tokenizedSample tok sample))
  else
    match pyGet l (Int.fdiv item 2) with
    | Except.error e => Except.error e
    | Except.ok sample_a =>
      if item % 2 = 0 then
        match evenPartnerIdx l sample_a item with
        | Except.error e => Except.error e
        | Except.ok idx =>
          match pyGet l idx with
          | Except.error e => Except.error e
          | Except.ok sample_b =>
            Except.ok (ItemResult.pair
              { sample_a := tokenizedSample tok sample_a,
                sample_b := tokenizedSample tok sample_b,
                distance := if sample_a.file_path = sample_b.file_path then 0 else 1 })
      else
        match pyGet l ((item + (l.length : Int)) % (2 * (l.length : Int))) with
        | Except.error e => Except.error e
        | Except.ok sample_b =>
          Except.ok (ItemResult.pair
            { sample_a := tokenizedSample tok sample_a,
              sample_b := tokenizedSample tok sample_b,
              distance := 1 })

/-- Embeds `DrumSampleDataset.__getitem__` with the external tokenizer `tok`:
a logged warning and `None` before preparation, otherwise `getItemCore`. -/
def getItem (tok : MidiFile → List (List Int)) (ds : DrumSampleDataset)
    (item : Int) : Except PyErr ItemResult :=
  match ds.samples with
  | none => Except.ok ItemResult.noneR
  | some l => getItemCore tok ds.paired l item

/-- A 4/4 time signature declared at tick 0. -/
def ts44 : TimeSignature := { numerator := 4, denominator := 4, time := 0 }

/-- A drum track with a single note at tick 0. -/
def drumTrack : Instrument :=
  { program := 0, is_drum := true,
    notes := [{ velocity := 64, pitch := 36, start := 0, endTick := 1 }] }

/-- A 4-bar 4/4 timeline at 480 ticks per beat with one drum track
(the scenario of the spec: 4 bars of 4/4 are `4 * 4 * 480 = 7680` ticks). -/
def midi44 : MidiFile :=
  { ticks_per_beat := 480, max_tick := 7680,
    time_signature_changes := [ts44], instruments := [drumTrack] }

/-- An empty placeholder timeline for hand-built `RawSample`s. -/
def emptyMidi : MidiFile :=
  { ticks_per_beat := 480, max_tick := 0,
    time_signature_changes := [], instruments := [] }

/-- A trivial concrete tokenizer for witnesses. -/
def tok0 : MidiFile → List (List Int) := fun _ => []

/-- A hand-built sample from file `"a.mid"`. -/
def sampleA0 : RawSample :=
  { file_path := ("a.mid" : String), start := 0, endTick := 10, midi := emptyMidi }

/-- A second hand-built sample from file `"a.mid"`. -/
def sampleA1 : RawSample :=
  { file_path := ("a.mid" : String), start := 10, endTick := 20, midi := emptyMidi }

/-- A hand-built sample from file `"b.mid"`. -/
def sampleB0 : RawSample :=
  { file_path := ("b.mid" : String), start := 0, endTick := 10, midi := emptyMidi }

/-- A prepared unpaired dataset holding one sample. -/
def dsSingle : DrumSampleDataset :=
  { midi_file_paths := [], bars_per_sample := 2, paired := false,
    filter_out_empty_samples := true, only_drum := true,
    samples := some [sampleA0] }

/-- A prepared paired dataset holding two samples from different files. -/
def dsPairAB : DrumSampleDataset :=
  { midi_file_paths := [], bars_per_sample := 2, paired := true,
    filter_out_empty_samples := true, only_drum := true,
    samples := some [sampleA0, sampleB0] }

/-- A prepared paired dataset holding two samples from the same file. -/
def dsPairAA : DrumSampleDataset :=
  { midi_file_paths := [], bars_per_sample := 2, paired := true,
    filter_out_empty_samples := true, only_drum := true,
    samples := some [sampleA0, sampleA1] }

/-- An unprepared dataset over a directory containing the single file
`"a.mid"` (which parses to `midi44`), with the source's default flags. -/
def dsFresh : DrumSampleDataset :=
  { midi_file_paths := [("a.mid" : String)], bars_per_sample := 2, paired := false,
    filter_out_empty_samples := true, only_drum := true, samples := none }

/-- The filesystem collaborator for `dsFresh`: `"a.mid"` parses to `midi44`. -/
def parseA : MidiPath → Option MidiFile :=
  fun p => if p = ("a.mid" : String) then some midi44 else none

/-- The non-drum counterpart of `drumTrack`. -/
def pianoTrack : Instrument :=
  { program := 0, is_drum := false,
    notes := [{ velocity := 64, pitch := 60, start := 0, endTick := 1 }] }

/-- A timeline whose only track is non-percussion. -/
def midiPiano : MidiFile :=
  { ticks_per_beat := 480, max_tick := 10,
    time_signature_changes := [ts44], instruments := [pianoTrack] }

/-- The first window the extractor produces from `midi44` with
`bars_per_sample = 2`. -/
def win0 : RawSample :=
  { file_path := ("f.mid" : String), start := 0, endTick := 3840,
    midi := sliceMidi midi44 0 3840 }

/-- The second window the extractor produces from `midi44` with
`bars_per_sample = 2`. -/
def win1 : RawSample :=
  { file_path := ("f.mid" : String), start := 3840, endTick := 7680,
    midi := sliceMidi midi44 3840 7680 }

/-- The spec's contiguity invariant, anchored at a start tick `t`: the first
window starts at `t` and each window's end is the next window's start. -/
def contiguousFrom (t : Int) : List RawSample → Bool
  | [] => true
  | w :: rest => decide (w.start = t) && contiguousFrom w.endTick rest

/-- The spec's ordering premise on time-signature events: non-decreasing tick
offsets. -/
def sortedByTime : List TimeSignature → Bool
  | [] => true
  | [_] => true
  | a :: b :: rest => decide (a.time ≤ b.time) && sortedByTime (b :: rest)

/-- The state of the caller's MIDI object after `extract_samples` has run:
the source reassigns `midi_obj.instruments` to the drum-only sublist when
`only_drum` is set — but only after the empty-time-signature early return. -/
def extractPost (m : MidiFile) (od : Bool) : MidiFile :=
  if od = true ∧ m.time_signature_changes ≠ [] then
    { m with instruments := m.instruments.filter (fun i => i.is_drum) }
  else m

/-! ## Theorems -/

theorem pyGet_ok {α : Type} (l : List α) (i : Int) (a : α) (h0 : 0 ≤ i)
    (hs : l[i.toNat]? = some a) : pyGet l i = Except.ok a := by
  unfold pyGet
  simp only [if_neg (by omega : ¬ i < 0), if_pos h0, hs]

theorem pyGet_neg_ok {α : Type} (l : List α) (i : Int) (a : α)
    (h0 : -(l.length : Int) ≤ i) (h1 : i < 0)
    (hs : l[(i + l.length).toNat]? = some a) :
    pyGet l i = Except.ok a := by
  unfold pyGet
  simp only [if_pos h1, if_pos (by omega : (0:Int) ≤ i + (l.length : Int)), hs]

theorem pyGet_err_top {α : Type} (l : List α) (i : Int)
    (h : (l.length : Int) ≤ i) : pyGet l i = Except.error PyErr.indexError := by
  unfold pyGet
  have h1 : ¬ i < 0 := by omega
  have h2 : l[i.toNat]? = none := List.getElem?_eq_none (by omega)
  simp only [if_neg h1, if_pos (by omega : (0:Int) ≤ i), h2]

theorem pyGet_err_bot {α : Type} (l : List α) (i : Int)
    (h : i < -(l.length : Int)) : pyGet l i = Except.error PyErr.indexError := by
  unfold pyGet
  have h1 : i < 0 := by omega
  simp only [if_pos h1, if_neg (by omega : ¬ (0:Int) ≤ i + (l.length : Int))]

theorem getItem_prepared (tok : MidiFile → List (List Int))
    (ds : DrumSampleDataset) (l : List RawSample) (item : Int)
    (h : ds.samples = some l) :
    getItem tok ds item = getItemCore tok ds.paired l item := by
  unfold getItem
  rw [h]

theorem sortedByTime_head_le (a : TimeSignature) (rest : List TimeSignature)
    (h : sortedByTime (a :: rest) = true) :
    ∀ y ∈ rest, a.time ≤ y.time := by
  induction rest generalizing a with
  | nil => intro y hy; cases hy
  | cons b r ih =>
    intro y hy
    unfold sortedByTime at h
    rw [Bool.and_eq_true] at h
    obtain ⟨hab, hbr⟩ := h
    have hab2 : a.time ≤ b.time := of_decide_eq_true hab
    cases hy with
    | head => exact hab2
    | tail _ hy2 => exact le_trans hab2 (ih b hbr y hy2)

theorem sortedByTime_tail (a : TimeSignature) (rest : List TimeSignature)
    (h : sortedByTime (a :: rest) = true) : sortedByTime rest = true := by
  cases rest with
  | nil => rfl
  | cons b r =>
    unfold sortedByTime at h
    rw [Bool.and_eq_true] at h
    exact h.2

theorem scanLoop_eq_filter (tick : Int) :
    ∀ (rest : List TimeSignature) (first : TimeSignature),
      sortedByTime (first :: rest) = true →
      scanLoop tick first rest
        = ((first :: rest).filter (fun s => decide (s.time ≤ tick))).getLastD first := by
  intro rest
  induction rest with
  | nil =>
    intro first _
    unfold scanLoop
    cases hc : decide (first.time ≤ tick) <;>
      simp [List.filter_cons, hc, List.getLastD]
  | cons b r ih =>
    intro first h
    have hab : first.time ≤ b.time :=
      sortedByTime_head_le first (b :: r) h b (by simp)
    have hbr : sortedByTime (b :: r) = true := sortedByTime_tail first (b :: r) h
    unfold scanLoop
    by_cases hc : b.time ≤ tick
    · rw [if_pos hc, ih b hbr]
      have h1 : decide (first.time ≤ tick) = true := decide_eq_true (le_trans hab hc)
      have h2 : decide (b.time ≤ tick) = true := decide_eq_true hc
      have e1 : (first :: b :: r).filter (fun s => decide (s.time ≤ tick))
          = first :: ((b :: r).filter (fun s => decide (s.time ≤ tick))) := by
        simp [List.filter_cons, h1]
      have e2 : (b :: r).filter (fun s => decide (s.time ≤ tick))
          = b :: (r.filter (fun s => decide (s.time ≤ tick))) := by
        simp [List.filter_cons, h2]
      rw [e1, e2, List.getLastD_cons, List.getLastD_cons, List.getLastD_cons]
    · rw [if_neg hc]
      have h2 : decide (b.time ≤ tick) = false := decide_eq_false hc
      have hr : (r.filter (fun s => decide (s.time ≤ tick))) = [] := by
        apply List.filter_eq_nil_iff.mpr
        intro y hy
        have hby : b.time ≤ y.time := sortedByTime_head_le b r hbr y hy
        simp only [decide_eq_true_eq]
        omega
      cases hcf : decide (first.time ≤ tick) <;>
        simp [List.filter_cons, hcf, h2, hr, List.getLastD]

theorem extractLoop_contiguous (bars : Nat) (fp : MidiPath) (m : MidiFile) :
    ∀ (fuel : Nat) (s : Int) (ws : List RawSample),
      extractLoop bars fp m fuel s s = some ws → contiguousFrom s ws = true := by
  intro fuel
  induction fuel with
  | zero =>
    intro s ws h
    unfold extractLoop at h
    split at h
    · cases h
    · injection h with h2
      rw [← h2]
      rfl
  | succ fuel ih =>
    intro s ws h
    unfold extractLoop at h
    split at h
    · split at h
      · injection h with h2
        rw [← h2]
        rfl
      · rename_i e2 hadv
        split at h
        · cases h
        · rename_i rest hrec
          injection h with h2
          rw [← h2]
          unfold contiguousFrom
          rw [Bool.and_eq_true]
          exact ⟨decide_eq_true rfl, ih e2 rest hrec⟩
    · injection h with h2
      rw [← h2]
      rfl

theorem extractLoop_ends (bars : Nat) (fp : MidiPath) (m : MidiFile) :
    ∀ (fuel : Nat) (s : Int) (ws : List RawSample),
      extractLoop bars fp m fuel s s = some ws →
      ∀ w ∈ ws, advanceBars m bars w.start = some w.endTick := by
  intro fuel
  induction fuel with
  | zero =>
    intro s ws h
    unfold extractLoop at h
    split at h
    · cases h
    · injection h with h2
      rw [← h2]
      intro w hw
      cases hw
  | succ fuel ih =>
    intro s ws h
    unfold extractLoop at h
    split at h
    · split at h
      · injection h with h2
        rw [← h2]
        intro w hw
        cases hw
      · rename_i e2 hadv
        split at h
        · cases h
        · rename_i rest hrec
          injection h with h2
          rw [← h2]
          intro w hw
          cases hw with
          | head => exact hadv
          | tail _ hw2 => exact ih e2 rest hrec w hw2
    · injection h with h2
      rw [← h2]
      intro w hw
      cases hw

theorem advanceBars_congr (m m2 : MidiFile)
    (hts : m.time_signature_changes = m2.time_signature_changes)
    (htpb : m.ticks_per_beat = m2.ticks_per_beat) :
    ∀ (n : Nat) (e : Int), advanceBars m n e = advanceBars m2 n e := by
  intro n
  induction n with
  | zero => intro e; rfl
  | succ n ih =>
    intro e
    unfold advanceBars
    rw [hts, htpb]
    cases get_time_signature_at_tick e m2.time_signature_changes with
    | none => rfl
    | some ts => exact ih (e + barTicks ts m2.ticks_per_beat)

/-- C5: for every timeline with at least one time-signature event and at
least one track surviving the drum filter, any completed extraction yields a
contiguous, non-overlapping chain of windows: the first window starts at
tick 0 and each window's end tick is the next window's start tick, so the
windows cover `[0, end_of_last_window)`. -/
theorem c5_windows_contiguous (ext : SampleExtractor) (m : MidiFile)
    (fp : MidiPath) (od : Bool) (fuel : Nat) (ws : List RawSample)
    (_hts : m.time_signature_changes ≠ [])
    (_htr : (if od = true then m.instruments.filter (fun i => i.is_drum)
            else m.instruments) ≠ [])
    (hx : (ext.extract_samples fp m od fuel).2 = some ws) :
    contiguousFrom 0 ws = true := by
  unfold SampleExtractor.extract_samples at hx
  split at hx
  · injection hx with h2
    rw [← h2]
    rfl
  · simp only at hx
    split at hx
    · split at hx
      · injection hx with h2
        rw [← h2]
        rfl
      · exact extractLoop_contiguous ext.bars_per_sample fp _ fuel 0 ws hx
    · split at hx
      · injection hx with h2
        rw [← h2]
        rfl
      · exact extractLoop_contiguous ext.bars_per_sample fp _ fuel 0 ws hx

theorem c5_witness : contiguousFrom 0 [win0, win1] = true :=
  c5_windows_contiguous { bars_per_sample := 2 } midi44 ("f.mid" : String) true 20
    [win0, win1] (by decide) (by decide) (by decide)

/-- C6: on a non-empty event list ordered by tick offset,
`get_time_signature_at_tick` returns the last event whose offset is ≤ the
query tick, and falls back to the first event when no event's offset is ≤
the tick (which also covers the single-entry case). -/
theorem c6_time_signature_lookup (tick : Int) (first : TimeSignature)
    (rest : List TimeSignature) (hs : sortedByTime (first :: rest) = true) :
    get_time_signature_at_tick tick (first :: rest)
      = some (((first :: rest).filter (fun s => decide (s.time ≤ tick))).getLastD first) :=
  congrArg some (scanLoop_eq_filter tick rest first hs)

theorem c6_witness :
    get_time_signature_at_tick 1000
        [ts44, { numerator := 3, denominator := 4, time := 960 }]
      = some { numerator := 3, denominator := 4, time := 960 } :=
  (c6_time_signature_lookup 1000 ts44
    [{ numerator := 3, denominator := 4, time := 960 }] (by decide)).trans (by decide)

/-- C7: every yielded window's end tick is obtained from its start tick by
advancing `bars_per_sample` bars, each bar adding the truncation of
`(numerator / (denominator / 4)) * ticks_per_beat` for the signature active
at the running cursor (`advanceBars`/`barTicks`); in particular the 4-bar
4/4 timeline at `ticks_per_beat = 480` with `bars_per_sample = 2` yields
exactly the two windows `[0, 3840)` and `[3840, 7680)`. -/
theorem c7_bar_advance :
    (∀ (ext : SampleExtractor) (fp : MidiPath) (m : MidiFile) (od : Bool)
        (fuel : Nat) (ws : List RawSample) (w : RawSample),
        (ext.extract_samples fp m od fuel).2 = some ws → w ∈ ws →
        advanceBars m ext.bars_per_sample w.start = some w.endTick)
    ∧ ((SampleExtractor.extract_samples { bars_per_sample := 2 }
          ("f.mid" : String) midi44 true 20).2 = some [win0, win1]
       ∧ win0.start = 0 ∧ win0.endTick = 3840
       ∧ win1.start = 3840 ∧ win1.endTick = 7680) := by
  constructor
  · intro ext fp m od fuel ws w hx hw
    unfold SampleExtractor.extract_samples at hx
    split at hx
    · injection hx with h2
      rw [← h2] at hw
      cases hw
    · simp only at hx
      split at hx
      · split at hx
        · injection hx with h2
          rw [← h2] at hw
          cases hw
        · have hends := extractLoop_ends ext.bars_per_sample fp _ fuel 0 ws hx w hw
          exact Eq.trans
            (advanceBars_congr m
              { ticks_per_beat := m.ticks_per_beat, max_tick := m.max_tick,
                time_signature_changes := m.time_signature_changes,
                instruments := m.instruments.filter (fun i => i.is_drum) }
              rfl rfl ext.bars_per_sample w.start) hends
      · split at hx
        · injection hx with h2
          rw [← h2] at hw
          cases hw
        · exact extractLoop_ends ext.bars_per_sample fp _ fuel 0 ws hx w hw
  · exact ⟨by decide, by decide, by decide, by decide, by decide⟩

theorem c7_witness : advanceBars midi44 2 0 = some 3840 :=
  c7_bar_advance.1 { bars_per_sample := 2 } ("f.mid" : String) midi44 true 20
    [win0, win1] win0 (by decide) (by decide)

theorem extract_samples_post (ext : SampleExtractor) (fp : MidiPath)
    (m : MidiFile) (od : Bool) (fuel : Nat) :
    (ext.extract_samples fp m od fuel).1 = extractPost m od := by
  unfold SampleExtractor.extract_samples extractPost
  by_cases hts : m.time_signature_changes.length = 0
  · have he : m.time_signature_changes = [] := List.length_eq_zero.mp hts
    simp [hts, he]
  · have hne : m.time_signature_changes ≠ [] := by
      intro he
      rw [he] at hts
      exact hts rfl
    cases od with
    | false =>
      simp [hts, hne]
      split <;> rfl
    | true =>
      simp [hts, hne]
      split <;> rfl

theorem extract_samples_result (ext : SampleExtractor) (fp : MidiPath)
    (m : MidiFile) (od : Bool) (fuel : Nat) :
    (ext.extract_samples fp m od fuel).2
      = if m.time_signature_changes = [] ∨ (extractPost m od).instruments = []
        then some []
        else extractLoop ext.bars_per_sample fp (extractPost m od) fuel 0 0 := by
  unfold SampleExtractor.extract_samples extractPost
  by_cases hts : m.time_signature_changes.length = 0
  · have he : m.time_signature_changes = [] := List.length_eq_zero.mp hts
    simp [hts, he]
  · have hne : m.time_signature_changes ≠ [] := by
      intro he
      rw [he] at hts
      exact hts rfl
    cases od with
    | false =>
      simp [hts, hne, List.length_eq_zero]
      split <;> simp
    | true =>
      simp [hts, hne, List.length_eq_zero]
      split <;> simp

theorem extractPost_ts (m : MidiFile) (od : Bool) :
    (extractPost m od).time_signature_changes = m.time_signature_changes := by
  unfold extractPost
  split <;> rfl

theorem extractPost_idem (m : MidiFile) (od : Bool) :
    extractPost (extractPost m od) od = extractPost m od := by
  by_cases h : od = true ∧ m.time_signature_changes ≠ []
  · have h1 : extractPost m od
        = { m with instruments := m.instruments.filter (fun i => i.is_drum) } := by
      unfold extractPost
      rw [if_pos h]
    rw [h1]
    unfold extractPost
    rw [if_pos (show od = true ∧
        ({ m with instruments := m.instruments.filter (fun i => i.is_drum) } :
          MidiFile).time_signature_changes ≠ [] from h)]
    simp [List.filter_filter]
  · have h1 : extractPost m od = m := by
      unfold extractPost
      rw [if_neg h]
    rw [h1, h1]

/-- C9 counterexample: `extract_samples` is not free of side effects on the
caller's MIDI object. With `only_drum` set and a non-percussion track
present, the caller's object has been mutated (its instrument list was
reassigned to the drum-only sublist) — here it ends up with no instruments
at all, while the claim says the object, including its instrument list, is
unchanged. -/
theorem c9_counterexample :
    (SampleExtractor.extract_samples { bars_per_sample := 2 }
      ("p.mid" : String) midiPiano true 20).1 ≠ midiPiano := by
  decide

/-- C9 amended: when `only_drum` is set and the timeline has at least one
time-signature event, `extract_samples` replaces the passed object's
instrument list with its drum-only sublist (a visible mutation of the
caller's object); otherwise the object is left unchanged. Re-invoking on
the resulting object with the same arguments is deterministic: it yields
the same post-state and the same sample sequence. -/
theorem c9_mutation_amended (ext : SampleExtractor) (fp : MidiPath)
    (m : MidiFile) (od : Bool) (fuel : Nat) :
    ((ext.extract_samples fp m od fuel).1
        = (if od = true ∧ m.time_signature_changes ≠ [] then
            { m with instruments := m.instruments.filter (fun i => i.is_drum) }
          else m))
    ∧ ext.extract_samples fp ((ext.extract_samples fp m od fuel).1) od fuel
        = ext.extract_samples fp m od fuel := by
  constructor
  · exact extract_samples_post ext fp m od fuel
  · have hp1 : (ext.extract_samples fp ((ext.extract_samples fp m od fuel).1) od fuel).1
        = (ext.extract_samples fp m od fuel).1 := by
      rw [extract_samples_post ext fp ((ext.extract_samples fp m od fuel).1) od fuel,
        extract_samples_post ext fp m od fuel, extractPost_idem]
    have hp2 : (ext.extract_samples fp ((ext.extract_samples fp m od fuel).1) od fuel).2
        = (ext.extract_samples fp m od fuel).2 := by
      rw [extract_samples_result ext fp ((ext.extract_samples fp m od fuel).1) od fuel,
        extract_samples_result ext fp m od fuel,
        extract_samples_post ext fp m od fuel, extractPost_idem, extractPost_ts]
    exact Prod.ext hp1 hp2

/-- C1 (code bug): `DrumSampleDataset.__init__` leaves `self.samples = None`
and `prepare_samples` never initialises it to a list, so the very first
`self.samples.append(sample)` raises
`AttributeError: 'NoneType' object has no attribute 'append'`. Evaluated on a
directory with one parseable file whose extraction yields a non-empty sample:
preparation raises instead of building the flat index the claim (and the
spec's `prepare_samples` contract) describes. -/
theorem c1_prepare_samples_raises :
    prepare_samples parseA 20 dsFresh = Except.error PyErr.attributeError := by
  decide

/-- C2 counterexample: on a prepared paired dataset with two samples
(`length() = 4`), the odd index `1` is in `[0, length())`, yet `get_item(1)`
raises `IndexError` instead of returning a pair: the code computes the
partner position as `int((item + len(self) / 2) % len(self))`
`= (1 + 2) % 4 = 3`, and position `3` does not exist in the 2-element flat
sample index (nor does the claim's position `(1 // 2 + 2) % 4 = 2`). -/
theorem c2_counterexample :
    getItem tok0 dsPairAB 1 = Except.error PyErr.indexError := by
  decide

/-- C2 amended: for an odd index `i` in `[0, length())` the code uses partner
position `(i + length()/2) mod length()` — over the *pair* count, not the
sample count. For `i < length()/2` that position is at least the sample
count, so `get_item` raises `IndexError`; for `i ≥ length()/2` it equals
`i - length()/2` and the returned pair's second member is the sample at that
position of the flat index. -/
theorem c2_odd_partner_amended (tok : MidiFile → List (List Int))
    (ds : DrumSampleDataset) (l : List RawSample) (i : Int)
    (hsm : ds.samples = some l) (hp : ds.paired = true)
    (h0 : 0 ≤ i) (h2n : i < 2 * (l.length : Int)) (hodd : i % 2 = 1) :
    (i < (l.length : Int) → getItem tok ds i = Except.error PyErr.indexError)
    ∧ ((l.length : Int) ≤ i →
        ∃ p sb, l[(i - (l.length : Int)).toNat]? = some sb
          ∧ getItem tok ds i = Except.ok (ItemResult.pair p)
          ∧ p.sample_b = tokenizedSample tok sb) := by
  have hfd : Int.fdiv i 2 = i / 2 := Int.fdiv_eq_ediv i (by omega)
  have halt : (i / 2).toNat < l.length := by omega
  obtain ⟨sa, hsa⟩ : ∃ a, l[(i / 2).toNat]? = some a :=
    ⟨_, List.getElem?_eq_getElem halt⟩
  constructor
  · intro hlow
    have hmod : (i + (l.length : Int)) % (2 * (l.length : Int))
        = i + l.length := Int.emod_eq_of_lt (by omega) (by omega)
    rw [getItem_prepared tok ds l i hsm, hp]
    unfold getItemCore
    simp only [if_neg (show ¬ (true = false) from by simp), hfd,
      pyGet_ok l (i / 2) sa (by omega) hsa,
      if_neg (show ¬ i % 2 = 0 from by omega), hmod,
      pyGet_err_top l (i + (l.length : Int)) (by omega)]
  · intro hhigh
    have hmod : (i + (l.length : Int)) % (2 * (l.length : Int))
        = i - l.length := by
      have h3 : i + (l.length : Int)
          = (i - l.length) + (2 * (l.length : Int)) * 1 := by ring
      rw [h3, Int.add_mul_emod_self_left]
      exact Int.emod_eq_of_lt (by omega) (by omega)
    have hblt : (i - (l.length : Int)).toNat < l.length := by omega
    obtain ⟨sb, hsb⟩ : ∃ b, l[(i - (l.length : Int)).toNat]? = some b :=
      ⟨_, List.getElem?_eq_getElem hblt⟩
    have hgi : getItem tok ds i = Except.ok (ItemResult.pair
        { sample_a := tokenizedSample tok sa,
          sample_b := tokenizedSample tok sb,
          distance := 1 }) := by
      rw [getItem_prepared tok ds l i hsm, hp]
      unfold getItemCore
      simp only [if_neg (show ¬ (true = false) from by simp), hfd,
        pyGet_ok l (i / 2) sa (by omega) hsa,
        if_neg (show ¬ i % 2 = 0 from by omega), hmod,
        pyGet_ok l (i - (l.length : Int)) sb (by omega) hsb]
    exact ⟨_, sb, hsb, hgi, rfl⟩

theorem c2_witness :
    ∃ p, getItem tok0 dsPairAB 3 = Except.ok (ItemResult.pair p)
      ∧ p.sample_b = tokenizedSample tok0 sampleB0 := by
  obtain ⟨p, sb, hsb, hgi, hpb⟩ :=
    (c2_odd_partner_amended tok0 dsPairAB [sampleA0, sampleB0] 3 rfl rfl
      (by decide) (by decide) (by decide)).2 (by decide)
  have hsb2 : sb = sampleB0 := by
    have hv : ([sampleA0, sampleB0] :
        List RawSample)[((3 : Int) - (([sampleA0, sampleB0] :
          List RawSample).length : Int)).toNat]? = some sampleB0 := by decide
    injection hsb.symm.trans hv
  rw [hsb2] at hpb
  exact ⟨p, hgi, hpb⟩

/-- C3 (code bug): the claim describes the evident intent of the bounds
guard, but the source compares the candidate index against `len(self)`
(twice the sample count in paired mode) instead of `len(self.samples)`.
Evaluated at even index `2` of a prepared paired dataset with two same-file
samples: the candidate index `2` is out of range of the flat sample index,
the guard `2 >= 4` does not fire, and `self.samples[2].file_path` raises
`IndexError` instead of falling back to `samples[0]`. -/
theorem c3_even_tail_raises :
    getItem tok0 dsPairAA 2 = Except.error PyErr.indexError := by
  decide

/-- C4: whenever `get_item` at an odd index returns a pair on a prepared
paired dataset, that pair's `distance` is `1` — the odd branch never
compares file paths. -/
theorem c4_odd_distance_one (tok : MidiFile → List (List Int))
    (ds : DrumSampleDataset) (l : List RawSample) (i : Int)
    (p : TokenizedSamplePair)
    (hsm : ds.samples = some l) (hp : ds.paired = true)
    (hodd : i % 2 = 1)
    (h : getItem tok ds i = Except.ok (ItemResult.pair p)) :
    p.distance = 1 := by
  rw [getItem_prepared tok ds l i hsm, hp] at h
  unfold getItemCore at h
  rw [if_neg (show ¬ (true = false) from by simp)] at h
  split at h
  · cases h
  · rw [if_neg (show ¬ i % 2 = 0 from by omega)] at h
    split at h
    · cases h
    · injection h with h2
      injection h2 with h3
      rw [← h3]

theorem c4_witness :
    ∃ p, getItem tok0 dsPairAB 3 = Except.ok (ItemResult.pair p)
      ∧ p.distance = 1 := by
  have hgi : getItem tok0 dsPairAB 3 = Except.ok (ItemResult.pair
      { sample_a := tokenizedSample tok0 sampleB0,
        sample_b := tokenizedSample tok0 sampleB0, distance := 1 }) := by decide
  exact ⟨_, hgi, c4_odd_distance_one tok0 dsPairAB [sampleA0, sampleB0] 3 _
    rfl rfl (by decide) hgi⟩

/-- C8 counterexample: on a prepared unpaired dataset with one sample,
index `-1` is outside `[0, length())`, yet `get_item(-1)` does not raise —
Python negative indexing silently maps it to the last sample. -/
theorem c8_counterexample :
    getItem tok0 dsSingle (-1)
      = Except.ok (ItemResult.single (tokenizedSample tok0 sampleA0)) := by
  decide

/-- C8 amended: indices at or above `length()` (and, unpaired, below
`-length()`) raise `IndexError`; but negative indices are not uniformly
errors: unpaired indices in `[-length(), 0)` are silently mapped by Python
negative indexing to the sample at `length() + index`. In paired mode,
indices at or above `length()` and below `-length()` likewise raise. -/
theorem c8_index_errors_amended :
    (∀ (tok : MidiFile → List (List Int)) (ds : DrumSampleDataset)
        (l : List RawSample) (i : Int),
        ds.samples = some l → ds.paired = false →
        ((l.length : Int) ≤ i ∨ i < -(l.length : Int)) →
        getItem tok ds i = Except.error PyErr.indexError)
    ∧ (∀ (tok : MidiFile → List (List Int)) (ds : DrumSampleDataset)
        (l : List RawSample) (i : Int),
        ds.samples = some l → ds.paired = false →
        -(l.length : Int) ≤ i → i < 0 →
        ∃ s, l[(i + l.length).toNat]? = some s
          ∧ getItem tok ds i = Except.ok (ItemResult.single (tokenizedSample tok s)))
    ∧ (∀ (tok : MidiFile → List (List Int)) (ds : DrumSampleDataset)
        (l : List RawSample) (i : Int),
        ds.samples = some l → ds.paired = true →
        (2 * (l.length : Int) ≤ i ∨ i < -(2 * (l.length : Int))) →
        getItem tok ds i = Except.error PyErr.indexError) := by
  refine ⟨?_, ?_, ?_⟩
  · intro tok ds l i hsm hp hout
    rw [getItem_prepared tok ds l i hsm, hp]
    unfold getItemCore
    rw [if_pos rfl]
    cases hout with
    | inl h => rw [pyGet_err_top l i h]
    | inr h => rw [pyGet_err_bot l i h]
  · intro tok ds l i hsm hp h0 h1
    have hlt : (i + (l.length : Int)).toNat < l.length := by omega
    obtain ⟨s, hs⟩ : ∃ s, l[(i + (l.length : Int)).toNat]? = some s :=
      ⟨_, List.getElem?_eq_getElem hlt⟩
    refine ⟨s, hs, ?_⟩
    rw [getItem_prepared tok ds l i hsm, hp]
    unfold getItemCore
    rw [if_pos rfl, pyGet_neg_ok l i s h0 h1 hs]
  · intro tok ds l i hsm hp hout
    rw [getItem_prepared tok ds l i hsm, hp]
    unfold getItemCore
    rw [if_neg (show ¬ (true = false) from by simp)]
    have hfd : Int.fdiv i 2 = i / 2 := Int.fdiv_eq_ediv i (by omega)
    cases hout with
    | inl h => rw [hfd, pyGet_err_top l (i / 2) (by omega)]
    | inr h => rw [hfd, pyGet_err_bot l (i / 2) (by omega)]

theorem c8_witness :
    getItem tok0 dsSingle 1 = Except.error PyErr.indexError :=
  c8_index_errors_amended.1 tok0 dsSingle [sampleA0] 1 rfl rfl
    (Or.inl (by decide))

/-- C10: on a prepared paired dataset, when the candidate partner
`samples[1]` exists but comes from a different file than `samples[0]`, the
even-index fallback at index 0 selects position `-1`, which Python maps to
the last sample of the entire flat index — the fallback wraps around to the
end of the corpus rather than failing. -/
theorem c10_fallback_wraps (tok : MidiFile → List (List Int))
    (ds : DrumSampleDataset) (l : List RawSample) (s0 s1 sl : RawSample)
    (hsm : ds.samples = some l) (hp : ds.paired = true)
    (h0 : l[0]? = some s0) (h1 : l[1]? = some s1)
    (hne : s1.file_path ≠ s0.file_path) (hl : l.getLast? = some sl) :
    ∃ p, getItem tok ds 0 = Except.ok (ItemResult.pair p)
      ∧ p.sample_b = tokenizedSample tok sl := by
  have hlen : 2 ≤ l.length := by
    obtain ⟨hlt, _⟩ := List.getElem?_eq_some_iff.mp h1
    omega
  have hg : ¬ (2 * (l.length : Int) ≤ Int.fdiv 0 2 + 1) := by
    rw [show Int.fdiv (0 : Int) 2 = 0 from by decide]
    omega
  have h1x : l[(Int.fdiv 0 2 + 1 : Int).toNat]? = some s1 := by
    rw [show ((Int.fdiv 0 2 + 1 : Int)).toNat = 1 from by decide]
    exact h1
  have hepi : evenPartnerIdx l s0 0 = Except.ok (-1) := by
    simp only [evenPartnerIdx, if_neg hg,
      pyGet_ok l (Int.fdiv 0 2 + 1) s1 (by decide) h1x, if_pos hne]
    decide
  have hpy0 : pyGet l (Int.fdiv 0 2) = Except.ok s0 :=
    pyGet_ok l (Int.fdiv 0 2) s0 (by decide) h0
  have hpyl : pyGet l (-1) = Except.ok sl := by
    apply pyGet_neg_ok l (-1) sl (by omega) (by decide)
    have hgl : l.getLast? = l[l.length - 1]? := List.getLast?_eq_getElem? l
    rw [hgl] at hl
    have hix : ((-1 : Int) + (l.length : Int)).toNat = l.length - 1 := by omega
    rw [hix]
    exact hl
  rw [getItem_prepared tok ds l 0 hsm, hp]
  unfold getItemCore
  simp only [if_neg (show ¬ (true = false) from by simp), hpy0,
    if_pos (show (0 : Int) % 2 = 0 from by decide), hepi, hpyl]
  exact ⟨_, rfl, rfl⟩

theorem c10_witness :
    ∃ p, getItem tok0 dsPairAB 0 = Except.ok (ItemResult.pair p)
      ∧ p.sample_b = tokenizedSample tok0 sampleB0 :=
  c10_fallback_wraps tok0 dsPairAB [sampleA0, sampleB0] sampleA0 sampleB0
    sampleB0 rfl rfl (by decide) (by decide) (by decide) (by decide)
